import Mathlib

/-!
Verification of the Masonry grid layout engine (gestalt).

The definitions below are a shallow embedding of the code in
packages/gestalt/src (the Masonry component and its Masonry/ helpers).
Pixel quantities are modelled as rationals, JS arrays as lists, and the
identity-keyed caches as association lists over a type with decidable
equality (reference equality on the JS side).
-/

set_option autoImplicit false

/-- A rectangle assigned to one item: the Position type of Masonry/types. -/
structure Position where
  top : ℚ
  left : ℚ
  width : ℚ
  height : ℚ
  deriving DecidableEq, Repr

/-- Truthiness of a JS optional number: truthy when present and nonzero. -/
def optTruthy (x : Option ℚ) : Bool :=
  match x with
  | none => false
  | some v => v != 0

/-- The props of Masonry that feed its per-item visibility decision.
`hasScrollContainer` stands for `scrollContainer` being passed (the code only
tests it for truthiness inside renderMasonryComponent). -/
structure VirtualizationProps where
  virtualize : Bool
  hasScrollContainer : Bool
  virtualBufferFactor : ℚ
  virtualBoundsTop : Option ℚ
  virtualBoundsBottom : Option ℚ
  deriving Repr

/-- The scroll geometry Masonry tracks: this.containerHeight,
this.containerOffset and this.state.scrollTop. -/
structure ScrollState where
  containerHeight : ℚ
  containerOffset : ℚ
  scrollTop : ℚ
  deriving Repr

/-- The `isVisible` computation of Masonry.renderMasonryComponent: when a
scroll container is passed and `virtualBufferFactor` is truthy (nonzero), the
item is visible when its rectangle is neither entirely above `viewportTop`
nor entirely below `viewportBottom`; otherwise the item is always visible.
An explicit bound override is used only when truthy, else the buffer is
`containerHeight * virtualBufferFactor`. -/
def isVisible (p : VirtualizationProps) (s : ScrollState) (pos : Position) : Bool :=
  if p.hasScrollContainer && (p.virtualBufferFactor != 0) then
    let virtualBuffer := s.containerHeight * p.virtualBufferFactor
    let offsetScrollPos := s.scrollTop - s.containerOffset
    let viewportTop :=
      if optTruthy p.virtualBoundsTop then offsetScrollPos - p.virtualBoundsTop.getD 0
      else offsetScrollPos - virtualBuffer
    let viewportBottom :=
      if optTruthy p.virtualBoundsBottom then
        offsetScrollPos + s.containerHeight + p.virtualBoundsBottom.getD 0
      else offsetScrollPos + s.containerHeight + virtualBuffer
    if pos.top + pos.height < viewportTop ∨ pos.top > viewportBottom then false else true
  else
    true

/-- The final return of renderMasonryComponent:
`virtualize ? (isVisible && itemComponent) || null : itemComponent`.
Returns whether the item component is rendered at all. -/
def rendered (p : VirtualizationProps) (s : ScrollState) (pos : Position) : Bool :=
  if p.virtualize then isVisible p s pos else true

/-- The buffer the code effectively applies above the viewport: the explicit
override when truthy, else `containerHeight * virtualBufferFactor`. -/
def effectiveBufferTop (p : VirtualizationProps) (s : ScrollState) : ℚ :=
  if optTruthy p.virtualBoundsTop then p.virtualBoundsTop.getD 0
  else s.containerHeight * p.virtualBufferFactor

/-- The buffer the code effectively applies below the viewport. -/
def effectiveBufferBottom (p : VirtualizationProps) (s : ScrollState) : ℚ :=
  if optTruthy p.virtualBoundsBottom then p.virtualBoundsBottom.getD 0
  else s.containerHeight * p.virtualBufferFactor

/-- Modelled from the spec: the identity-keyed Measurement/Position cache.
The file Masonry/MeasurementStore.ts is imported by Masonry but is not under
src/; spec section 3 gives the operations has/get/set/reset with reset
clearing all entries. Modelled as an association list keyed by item
identity. -/
structure Store (α : Type) (β : Type) [DecidableEq α] where
  entries : List (α × β)

/-- has(item): whether an entry for the item is cached. -/
def Store.has {α β : Type} [DecidableEq α] (s : Store α β) (k : α) : Bool :=
  s.entries.any (fun e => e.1 == k)

/-- get(item): the cached value for the item, when present. -/
def Store.get {α β : Type} [DecidableEq α] (s : Store α β) (k : α) : Option β :=
  (s.entries.find? (fun e => e.1 == k)).map (fun e => e.2)

/-- set(item, value): cache a value for the item, replacing any entry. -/
def Store.set {α β : Type} [DecidableEq α] (s : Store α β) (k : α) (v : β) : Store α β :=
  ⟨(k, v) :: s.entries.filter (fun e => !(e.1 == k))⟩

/-- reset(): clear all entries. -/
def Store.reset {α β : Type} [DecidableEq α] (_ : Store α β) : Store α β :=
  ⟨[]⟩

/-- The store-reset logic of Masonry.componentDidUpdate: when the previous
width was known (not null) and the current width differs from it, both the
measurement store and the position store are reset; otherwise both are kept. -/
def didUpdateStores {T : Type} [DecidableEq T] (prevWidth newWidth : Option ℚ)
    (measurementStore : Store T ℚ) (positionStore : Store T Position) :
    Store T ℚ × Store T Position :=
  if prevWidth ≠ none ∧ newWidth ≠ prevWidth then
    (measurementStore.reset, positionStore.reset)
  else
    (measurementStore, positionStore)

/-- The stores a mounted Masonry instance holds: the optional caller-supplied
measurement store (this.props.measurementStore), the store in component state
(this.state.measurementStore) and this.positionStore (which is the external
position store when one was supplied). -/
structure GridController (T : Type) [DecidableEq T] where
  propsMeasurementStore : Option (Store T ℚ)
  stateMeasurementStore : Store T ℚ
  positionStore : Store T Position

/-- Masonry.reflow: resets the caller-supplied measurement store when present,
the state measurement store and the position store, then forces a re-render
(forceUpdate). The returned flag records that a re-render was forced. -/
def reflow {T : Type} [DecidableEq T] (c : GridController T) : GridController T × Bool :=
  (⟨c.propsMeasurementStore.map Store.reset,
    c.stateMeasurementStore.reset,
    c.positionStore.reset⟩, true)

/-- Masonry.fetchMore: sets isFetching to true and calls
loadItems({ from: items.length }). Returns the new flag and the requested
offset. -/
def fetchMore {T : Type} (items : List T) : Bool × ℕ :=
  (true, items.length)

/-- The piecewise state update returned by Masonry.getDerivedStateFromProps.
`isFetching = none` models the isFetching key being absent from the returned
object (the flag is left unchanged). -/
structure DerivedState (T : Type) where
  hasPendingMeasurements : Bool
  items : List T
  isFetching : Option Bool
  deriving Repr

/-- The early-return scan of the getDerivedStateFromProps loop, minus the
constant length comparison: true when some index of the new items list either
runs past the end of the state items list or holds a different item. -/
def scanMismatch {T : Type} [DecidableEq T] : List T → List T → Bool
  | [], _ => false
  | _ :: _, [] => true
  | a :: as, b :: bs => (a != b) || scanMismatch as bs

/-- Masonry.getDerivedStateFromProps: recomputes hasPendingMeasurements, and
resets the grid (clearing isFetching) when the incoming items differ from the
state items by insertion, replacement, shrinkage or emptying; when only
hasPendingMeasurements changed it is updated without touching isFetching;
otherwise no state change is returned. -/
def getDerivedStateFromProps {T : Type} [DecidableEq T] (measured : T → Bool)
    (items stateItems : List T) (stateHasPendingMeasurements : Bool) :
    Option (DerivedState T) :=
  let hasPendingMeasurements := items.any (fun item => !measured item)
  if items ≠ [] ∧ (items.length < stateItems.length ∨ scanMismatch items stateItems = true) then
    some ⟨hasPendingMeasurements, items, some false⟩
  else if items = [] ∧ stateItems ≠ [] then
    some ⟨hasPendingMeasurements, items, some false⟩
  else if hasPendingMeasurements ≠ stateHasPendingMeasurements then
    some ⟨hasPendingMeasurements, items, none⟩
  else
    none

/-- The maxHeight bookkeeping in Masonry.render: the rendered height is the
maximum of all position bottoms and the stored maximum (or 0 when no items
are positioned), and the stored maximum is replaced when the new height
exceeds it or when no items are positioned. Returns the new stored maximum. -/
def renderHeightUpdate (positions : List Position) (maxHeight : ℚ) : ℚ :=
  let height :=
    if positions.isEmpty then 0
    else positions.foldl (fun m pos => max m (pos.top + pos.height)) maxHeight
  if height > maxHeight ∨ positions.isEmpty then height else maxHeight

/-- The ColumnSpanConfig of Masonry/multiColumnLayout: either a fixed column
span or a responsive descriptor by grid-size bucket (sm/md/lg/xl). The code
under verification only compares a config against the number 1. -/
inductive ColumnSpanConfig where
  | fixed (n : ℕ)
  | responsive (sm md lg xl : ℕ)
  deriving DecidableEq, Repr

/-- The ResponsiveModuleConfig of Masonry/multiColumnLayout: a number, a
min/max descriptor, or absent. -/
inductive ResponsiveModuleConfig where
  | num (n : ℕ)
  | minmax (lo hi : ℕ)
  deriving DecidableEq, Repr

/-- Truthiness of an optional ResponsiveModuleConfig in JS: absent and the
number 0 are falsy, everything else is truthy. -/
def responsiveTruthy : Option ResponsiveModuleConfig → Bool
  | none => false
  | some (.num 0) => false
  | some _ => true

/-- The slice of ModulePositioningConfig the render path destructures. -/
structure ModulePositioningConfig where
  itemsBatchSize : ℕ
  deriving Repr

/-- Modelled from the spec: MULTI_COL_ITEMS_MEASURE_BATCH_SIZE, defined in
Masonry/multiColumnLayout.ts which is not under src/. The Masonry prop doc
for _getModulePositioningConfig states the default batch size is 5. -/
def MULTI_COL_ITEMS_MEASURE_BATCH_SIZE : ℕ := 5

/-- Inputs to the measuring-batch computation in Masonry.render. `gridSize`
stands for the result of getColumnCount and `moduleSize` for the result of
calculateActualColumnSpan (both defined in files not under src/); the render
path only passes them on to the caller-supplied positioning config. -/
structure MeasureBatchInput (T : Type) where
  items : List T
  measured : T → Bool
  getColumnSpanConfig : Option (T → ColumnSpanConfig)
  getResponsiveModuleConfigForSecondItem : Option (T → Option ResponsiveModuleConfig)
  getModulePositioningConfig : Option (ℕ → ℕ → ModulePositioningConfig)
  gridSize : ℕ
  moduleSize : ℕ
  minCols : ℕ

/-- itemsWithoutMeasurements in Masonry.render: the items lacking a cached
measurement. -/
def itemsWithoutMeasurements {T : Type} (inp : MeasureBatchInput T) : List T :=
  inp.items.filter (fun item => !inp.measured item)

/-- nextMultiColumnItem in Masonry.render: the first unmeasured item whose
column span config differs from 1, when a span config resolver is passed. -/
def nextMultiColumnItem {T : Type} [DecidableEq T] (inp : MeasureBatchInput T) : Option T :=
  match inp.getColumnSpanConfig with
  | none => none
  | some f => (itemsWithoutMeasurements inp).find? (fun item => f item != ColumnSpanConfig.fixed 1)

/-- isFlexibleWidthItem in Masonry.render: the pending multi-column item is
the second item of the list and a truthy responsive module config was
resolved for that second item. -/
def isFlexibleWidthItem {T : Type} [DecidableEq T] (inp : MeasureBatchInput T) (nmi : T) : Bool :=
  let respCfg :=
    match inp.getResponsiveModuleConfigForSecondItem, inp.items[1]? with
    | some g, some second => g second
    | _, _ => none
  responsiveTruthy respCfg && (inp.items[1]? == some nmi)

/-- The batchSize variable in Masonry.render: defined only when a pending
multi-column item exists and is not the flexible-width second item; then it
is the caller-configured itemsBatchSize, defaulting to
MULTI_COL_ITEMS_MEASURE_BATCH_SIZE. -/
def batchSize {T : Type} [DecidableEq T] (inp : MeasureBatchInput T) : Option ℕ :=
  match nextMultiColumnItem inp with
  | none => none
  | some nmi =>
    if isFlexibleWidthItem inp nmi then none
    else
      some (match inp.getModulePositioningConfig with
        | some f => (f inp.gridSize inp.moduleSize).itemsBatchSize
        | none => MULTI_COL_ITEMS_MEASURE_BATCH_SIZE)

/-- itemsToMeasureCount in Masonry.render:
`batchSize && nextMultiColumnItemIndex <= batchSize ? batchSize + 1 : minCols`,
where the index is the position of the pending multi-column item among the
unmeasured items. -/
def itemsToMeasureCount {T : Type} [DecidableEq T] (inp : MeasureBatchInput T) : ℕ :=
  match batchSize inp, nextMultiColumnItem inp with
  | some b, some nmi =>
    if b ≠ 0 ∧ (itemsWithoutMeasurements inp).indexOf nmi ≤ b then b + 1 else inp.minCols
  | _, _ => inp.minCols

/-- The state of a mounted ScrollContainer: the element currently stored in
this.scrollContainer, and the multiset of elements on which its handleScroll
listener is registered. -/
structure SCState (E : Type) where
  tracked : Option E
  subs : List E
  deriving Repr, DecidableEq

/-- Lifecycle events a mounted ScrollContainer reacts to: componentDidUpdate
resolving the scrollContainer prop to an element (or to nothing), and
componentWillUnmount. -/
inductive SCEvent (E : Type) where
  | update (container : Option E)
  | unmount
  deriving Repr, DecidableEq

/-- ScrollContainer.updateScrollContainer: removes the scroll listener from
the previously tracked element when there is one, then stores the new element
and adds the listener to it. -/
def updateScrollContainer {E : Type} [DecidableEq E] (s : SCState E) (c : E) : SCState E :=
  let cleaned :=
    match s.tracked with
    | some old => s.subs.erase old
    | none => s.subs
  ⟨some c, c :: cleaned⟩

/-- ScrollContainer.componentDidMount: resolves the scrollContainer prop and,
when an element is obtained, subscribes to it; the component starts with no
tracked element and no subscriptions. -/
def scMount {E : Type} [DecidableEq E] (c : Option E) : SCState E :=
  match c with
  | some e => updateScrollContainer ⟨none, []⟩ e
  | none => ⟨none, []⟩

/-- One lifecycle step of a mounted ScrollContainer. componentDidUpdate only
re-subscribes when the resolved element exists and differs by reference from
the tracked one; componentWillUnmount removes the listener from the tracked
element. -/
def scStep {E : Type} [DecidableEq E] (s : SCState E) : SCEvent E → SCState E
  | .update c =>
    match c with
    | some e => if s.tracked = some e then s else updateScrollContainer s e
    | none => s
  | .unmount =>
    match s.tracked with
    | some e => ⟨s.tracked, s.subs.erase e⟩
    | none => s

/-- A mounted ScrollContainer after an arbitrary sequence of lifecycle
events. -/
def scRun {E : Type} [DecidableEq E] (c0 : Option E) (events : List (SCEvent E)) : SCState E :=
  events.foldl scStep (scMount c0)

/-- Modelled from the spec: the single-column (span 1) layout strategy.
getLayoutAlgorithm and the layout files it dispatches to are not under src/;
spec section 4.2 fixes the algorithm: for each measured item in order, place
it atop the column of smallest accumulated height (lowest index on ties), at
the current height of that column, then grow that column by the item height plus
the gutter. Items without a cached measurement are skipped. This returns the
index of the first minimum of the running heights. -/
def shortestColumnIdx (heights : List ℚ) : ℕ :=
  match heights with
  | [] => 0
  | h :: t =>
    (t.foldl
      (fun (acc : ℕ × ℚ × ℕ) h' =>
        if h' < acc.2.1 then (acc.2.2, h', acc.2.2 + 1) else (acc.1, acc.2.1, acc.2.2 + 1))
      (0, h, 1)).1

/-- Modelled from the spec: one pass of the single-column layout strategy of
spec section 4.2 over the item list, threading the per-column running
heights. Returns the positions of the placed items and the final running
heights. -/
def layoutSingleColumn {T : Type} (get : T → Option ℚ) (columnWidth gutter : ℚ) :
    List T → List ℚ → List Position × List ℚ
  | [], heights => ([], heights)
  | item :: rest, heights =>
    match get item with
    | none => layoutSingleColumn get columnWidth gutter rest heights
    | some h =>
      let c := shortestColumnIdx heights
      let top := heights.getD c 0
      let pos : Position := ⟨top, (columnWidth + gutter) * (c : ℚ), columnWidth, h⟩
      let next := layoutSingleColumn get columnWidth gutter rest (heights.set c (top + h + gutter))
      (pos :: next.1, next.2)

/-- The subscription invariant of a mounted ScrollContainer: either no
element holds the scroll listener, or exactly the tracked element does. -/
def scWellFormed {E : Type} (s : SCState E) : Prop :=
  s.subs = [] ∨ ∃ e, s.tracked = some e ∧ s.subs = [e]

/-- A measuring-state input whose pending multi-column item is the second
item and carries a responsive (flexible-width) module config: two unmeasured
items, the second spanning 2 columns with a min/max descriptor. -/
def c5CexInput : MeasureBatchInput ℕ :=
  ⟨[10, 11], fun _ => false,
   some (fun item => if item = 11 then .fixed 2 else .fixed 1),
   some (fun _ => some (.minmax 2 4)),
   none, 8, 2, 3⟩

/-- A measuring-state input with a pending 2-column item at index 0 among the
unmeasured items, no responsive config and no positioning config (so the
default batch size applies). -/
def c5WitnessInput : MeasureBatchInput ℕ :=
  ⟨[20, 21], fun _ => false,
   some (fun item => if item = 20 then .fixed 2 else .fixed 1),
   none, none, 8, 2, 3⟩

/-- An if-then-else over a decidable proposition yielding booleans, read back
as a proposition. -/
theorem if_false_true_eq_true_iff (c : Prop) [Decidable c] :
    (if c then false else true) = true ↔ ¬c := by
  by_cases h : c <;> simp [h]

/-- scanMismatch never fires on two identical lists. -/
theorem scanMismatch_self {T : Type} [DecidableEq T] (l : List T) : scanMismatch l l = false := by
  induction l with
  | nil => rfl
  | cons a t ih => simp [scanMismatch, ih]

/-- The running fold of position bottoms only grows its starting value. -/
theorem le_foldl_max (l : List Position) (init : ℚ) :
    init ≤ l.foldl (fun m pos => max m (pos.top + pos.height)) init := by
  induction l generalizing init with
  | nil => exact le_refl init
  | cons a t ih =>
    calc init ≤ max init (a.top + a.height) := le_max_left _ _
      _ ≤ _ := by simpa using ih (max init (a.top + a.height))

/-- C7: if virtualization is requested but no scroll container is configured,
every laid-out item is rendered, for every scroll state, every buffer
configuration and whether or not `virtualize` is set; the code has no failure
path here (plain conditional, no exception). -/
theorem c7_no_scroll_container_renders_all (v : Bool) (f : ℚ) (bt bb : Option ℚ)
    (s : ScrollState) (pos : Position) :
    rendered ⟨v, false, f, bt, bb⟩ s pos = true := by
  cases v <;> simp [rendered, isVisible]

/-- C10: with `virtualize` on and a scroll container configured, a zero
`virtualBufferFactor` short-circuits the visibility computation, so every
item is rendered even when explicit `virtualBoundsTop`/`virtualBoundsBottom`
overrides are supplied. -/
theorem c10_zero_buffer_factor_disables_virtualization (bt bb : Option ℚ)
    (s : ScrollState) (pos : Position) :
    rendered ⟨true, true, 0, bt, bb⟩ s pos = true := by
  simp [rendered, isVisible]

/-- C1 (counterexample): the claim quantifies over every buffer
configuration, but with explicit overrides virtualBoundsTop = 100 and
virtualBoundsBottom = 200 while virtualBufferFactor = 0, the item with
rectangle top 0, height 100 lies entirely above the claimed window starting
at scrollOffset - bufferTop = 1000 - 100 = 900, yet the code renders it. -/
theorem c1_counterexample :
    rendered ⟨true, true, 0, some 100, some 200⟩ ⟨500, 0, 1000⟩ ⟨0, 0, 236, 100⟩ = true ∧
    (0 : ℚ) + 100 < (1000 - 0) - 100 := by
  constructor
  · rfl
  · norm_num

/-- C1 (amended): when virtualization is on, a scroll container is
configured, and `virtualBufferFactor` is nonzero, an item is rendered exactly
when its rectangle meets the closed window from
scrollOffset - bufferTop to scrollOffset + containerHeight + bufferBottom,
where scrollOffset = scrollTop - containerOffset and each buffer is the
explicit override when that override is nonzero, else
containerHeight * virtualBufferFactor. -/
theorem c1_amended (p : VirtualizationProps) (s : ScrollState) (pos : Position)
    (hv : p.virtualize = true) (hsc : p.hasScrollContainer = true)
    (hf : p.virtualBufferFactor ≠ 0) :
    rendered p s pos = true ↔
      ((s.scrollTop - s.containerOffset) - effectiveBufferTop p s ≤ pos.top + pos.height ∧
       pos.top ≤ (s.scrollTop - s.containerOffset) + s.containerHeight +
         effectiveBufferBottom p s) := by
  have hf' : (p.virtualBufferFactor != 0) = true := by
    simpa [bne_iff_ne] using hf
  simp only [rendered, isVisible, effectiveBufferTop, effectiveBufferBottom, hv, hsc, hf',
    Bool.and_self, if_true, if_false_true_eq_true_iff]
  by_cases ht : optTruthy p.virtualBoundsTop <;>
    by_cases hb : optTruthy p.virtualBoundsBottom <;>
      simp [ht, hb, not_or, not_lt]

/-- C1 (witness for the amended theorem): with factor 7/10 and no overrides,
the window starting at 1000 - 350 = 650 meets the item spanning 700 to 800,
so the item is rendered. -/
theorem c1_amended_witness :
    rendered ⟨true, true, 7/10, none, none⟩ ⟨500, 0, 1000⟩ ⟨700, 0, 236, 100⟩ = true := by
  refine (c1_amended ⟨true, true, 7/10, none, none⟩ ⟨500, 0, 1000⟩ ⟨700, 0, 236, 100⟩
    rfl rfl (by norm_num)).mpr ?_
  constructor <;> norm_num [effectiveBufferTop, effectiveBufferBottom, optTruthy]

/-- C2: whenever the container width changes between two rendered updates
(the previous width was known and the new width differs), componentDidUpdate
resets both the measurement store and the position store: afterwards has(item)
is false for every item, in both stores. -/
theorem c2_width_change_resets_stores {T : Type} [DecidableEq T] (w1 w2 : ℚ) (h : w1 ≠ w2)
    (ms : Store T ℚ) (ps : Store T Position) (item : T) :
    ((didUpdateStores (some w1) (some w2) ms ps).1.has item = false) ∧
    ((didUpdateStores (some w1) (some w2) ms ps).2.has item = false) := by
  have hc : (some w1 : Option ℚ) ≠ none ∧ (some w2 : Option ℚ) ≠ some w1 := by
    refine ⟨by simp, ?_⟩
    simpa using fun he => h he.symm
  unfold didUpdateStores
  rw [if_pos hc]
  simp [Store.has, Store.reset]

/-- C2 (witness): a width change from 900 to 600 empties a store that cached
item 0, and the position store alongside it. -/
theorem c2_witness :
    ((didUpdateStores (some 900) (some 600)
        (⟨[((0 : ℕ), (5 : ℚ))]⟩ : Store ℕ ℚ) ⟨[]⟩).1.has 0 = false) ∧
    ((didUpdateStores (some 900) (some 600)
        (⟨[((0 : ℕ), (5 : ℚ))]⟩ : Store ℕ ℚ) ⟨[]⟩).2.has 0 = false) :=
  c2_width_change_resets_stores 900 600 (by norm_num) _ _ 0

/-- C3 (counterexample): a render pass that positions one item of height 100
stores a maximum height of 100, and the next pass with zero positioned items
resets the stored maximum to 0 — a strict decrease between two consecutive
passes of one mount. -/
theorem c3_counterexample :
    renderHeightUpdate [⟨0, 0, 236, 100⟩] 0 = 100 ∧ renderHeightUpdate [] 100 = 0 := by
  constructor <;> norm_num [renderHeightUpdate]

/-- C3 (amended): across any render pass that positions at least one item,
the stored maximum layout height never decreases; a pass with zero positioned
items resets it to the rendered height 0. -/
theorem c3_amended (positions : List Position) (maxHeight : ℚ) (h : positions ≠ []) :
    maxHeight ≤ renderHeightUpdate positions maxHeight := by
  unfold renderHeightUpdate
  have hne : positions.isEmpty = false := by
    simpa [List.isEmpty_iff] using h
  rw [hne]
  simp only [Bool.false_eq_true, if_false, or_false]
  have hle := le_foldl_max positions maxHeight
  split
  · exact hle
  · exact le_refl maxHeight

/-- C3 (witness for the amended theorem): a pass positioning one item keeps
the stored maximum at least at its previous value 5. -/
theorem c3_witness : (5 : ℚ) ≤ renderHeightUpdate [⟨0, 0, 236, 100⟩] 5 :=
  c3_amended [⟨0, 0, 236, 100⟩] 5 (by simp)

/-- C4 (counterexample): a fetch triggered at an items list of length 2
requests offset 2 and sets the fetch-in-progress flag; but when the next
props carry the single-element list [2] (every reference changed, length
1 < 2), getDerivedStateFromProps already clears the flag, before any items
sequence of length at least 2 was observed. -/
theorem c4_counterexample :
    fetchMore [(0 : ℕ), 1] = (true, 2) ∧
    getDerivedStateFromProps (fun _ => true) [(2 : ℕ)] [0, 1] false =
      some ⟨false, [2], some false⟩ ∧
    List.length [(2 : ℕ)] < 2 := by
  refine ⟨rfl, ?_, by norm_num⟩
  rfl

/-- C4 (amended): while the items sequence is unchanged from the sequence
observed at trigger time, no state derivation clears the fetch-in-progress
flag: on identical items, getDerivedStateFromProps either returns no update
or an update that leaves isFetching untouched. (The flag is cleared exactly
when the items sequence changes in any way — insertion, replacement,
shrinkage or emptying — not only at length at least the requested offset.) -/
theorem c4_amended {T : Type} [DecidableEq T] (measured : T → Bool) (items : List T)
    (flag : Bool) :
    Option.all (fun u => u.isFetching != some false)
      (getDerivedStateFromProps measured items items flag) = true := by
  unfold getDerivedStateFromProps
  have h1 : ¬(items ≠ [] ∧ (items.length < items.length ∨ scanMismatch items items = true)) := by
    rintro ⟨-, h | h⟩
    · omega
    · rw [scanMismatch_self] at h
      exact Bool.false_ne_true h
  rw [if_neg h1]
  have h2 : ¬(items = [] ∧ items ≠ []) := fun hc => hc.2 hc.1
  rw [if_neg h2]
  split
  · rfl
  · rfl

/-- C5 (counterexample): in c5CexInput the pending multi-column item is item
11, sitting at index 1 of the unmeasured items — within the lookahead window
of the default batch size 5 — yet because it is the flexible-width second
item the code renders minCols = 3 unmeasured items for measurement, not the
batch size plus one. -/
theorem c5_counterexample :
    nextMultiColumnItem c5CexInput = some 11 ∧
    (itemsWithoutMeasurements c5CexInput).indexOf 11 ≤ MULTI_COL_ITEMS_MEASURE_BATCH_SIZE ∧
    itemsToMeasureCount c5CexInput = 3 ∧
    (3 : ℕ) ≠ MULTI_COL_ITEMS_MEASURE_BATCH_SIZE + 1 := by
  refine ⟨rfl, by decide, rfl, by decide⟩

/-- C5 (amended): the number of unmeasured items rendered off-screen for
measurement is capped at the minimum column count, except when a pending
multi-column item that is not the flexible-width second item lies within the
lookahead window (its index among unmeasured items is at most the
strategy-specific batch size, which must be nonzero); then the cap is the
batch size plus one. -/
theorem c5_amended {T : Type} [DecidableEq T] (inp : MeasureBatchInput T) :
    (batchSize inp = none → itemsToMeasureCount inp = inp.minCols) ∧
    (∀ nmi, nextMultiColumnItem inp = some nmi → isFlexibleWidthItem inp nmi = true →
      itemsToMeasureCount inp = inp.minCols) ∧
    (∀ b nmi, batchSize inp = some b → nextMultiColumnItem inp = some nmi →
      ((b ≠ 0 ∧ (itemsWithoutMeasurements inp).indexOf nmi ≤ b) →
        itemsToMeasureCount inp = b + 1) ∧
      (¬(b ≠ 0 ∧ (itemsWithoutMeasurements inp).indexOf nmi ≤ b) →
        itemsToMeasureCount inp = inp.minCols)) := by
  refine ⟨?_, ?_, ?_⟩
  · intro h
    simp [itemsToMeasureCount, h]
  · intro nmi hn hflex
    have hb : batchSize inp = none := by
      simp [batchSize, hn, hflex]
    simp [itemsToMeasureCount, hb]
  · intro b nmi hb hn
    constructor
    · intro hc
      simp [itemsToMeasureCount, hb, hn, hc]
    · intro hc
      simp only [itemsToMeasureCount, hb, hn]
      rw [if_neg hc]

/-- C5 (witness for the amended theorem): in c5WitnessInput the pending
2-column item 20 is at index 0 of the unmeasured items and no positioning
config is supplied, so the cap is the default batch size plus one, 6. -/
theorem c5_witness : itemsToMeasureCount c5WitnessInput = 5 + 1 :=
  ((c5_amended c5WitnessInput).2.2 5 20 rfl rfl).1 (by decide)

/-- C6: reflow() clears every entry of the state measurement store, the
position store and the caller-supplied external measurement store when one is
present — afterwards has(item) is false for every item in every store the
controller holds — and a re-render (with remeasure, since every measurement
is gone) is forced. -/
theorem c6_reflow_clears_all_stores {T : Type} [DecidableEq T] (c : GridController T)
    (item : T) :
    ((reflow c).1.stateMeasurementStore.has item = false) ∧
    ((reflow c).1.positionStore.has item = false) ∧
    (Option.all (fun s => !(s.has item)) (reflow c).1.propsMeasurementStore = true) ∧
    ((reflow c).2 = true) := by
  refine ⟨rfl, rfl, ?_, rfl⟩
  cases h : c.propsMeasurementStore <;> simp [reflow, h, Store.has, Store.reset]

/-- C8: the layout pass is a deterministic function of the ordered item list,
the cached measurements and the configuration: two layout passes over stores
with identical cached heights for the items produce identical Position
lists (and identical final column heights), whatever else the stores
contain. -/
theorem c8_layout_deterministic {T : Type} (get1 get2 : T → Option ℚ)
    (columnWidth gutter : ℚ) (items : List T) (heights : List ℚ)
    (h : ∀ item ∈ items, get1 item = get2 item) :
    layoutSingleColumn get1 columnWidth gutter items heights =
      layoutSingleColumn get2 columnWidth gutter items heights := by
  induction items generalizing heights with
  | nil => rfl
  | cons a t ih =>
    have ha : get1 a = get2 a := h a (List.mem_cons_self a t)
    have ht : ∀ item ∈ t, get1 item = get2 item := fun i hi => h i (List.mem_cons_of_mem a hi)
    simp only [layoutSingleColumn, ha]
    cases get2 a with
    | none => exact ih heights ht
    | some v =>
      dsimp only
      rw [ih _ ht]

/-- C8 (witness): two stores agreeing on the two items laid out — one of
them dropping every other key — give identical layout passes. -/
theorem c8_witness :
    layoutSingleColumn (fun _ => some (100 : ℚ)) 236 10 [(0 : ℕ), 1] [0, 0, 0] =
      layoutSingleColumn (fun n => if n ≤ 1 then some (100 : ℚ) else none) 236 10
        [(0 : ℕ), 1] [0, 0, 0] :=
  c8_layout_deterministic _ _ 236 10 [0, 1] [0, 0, 0]
    (by intro i hi; fin_cases hi <;> norm_num)

/-- A freshly mounted ScrollContainer satisfies the subscription invariant. -/
theorem scWellFormed_mount {E : Type} [DecidableEq E] (c0 : Option E) :
    scWellFormed (scMount c0) := by
  cases c0 with
  | none => exact Or.inl rfl
  | some e => exact Or.inr ⟨e, rfl, rfl⟩

/-- Every lifecycle step preserves the subscription invariant. -/
theorem scWellFormed_step {E : Type} [DecidableEq E] (s : SCState E) (ev : SCEvent E)
    (h : scWellFormed s) : scWellFormed (scStep s ev) := by
  cases ev with
  | update c =>
    cases c with
    | none => exact h
    | some e =>
      by_cases he : s.tracked = some e
      · simpa [scStep, he] using h
      · have hstep : scStep s (SCEvent.update (some e)) = updateScrollContainer s e := by
          simp [scStep, he]
        rw [hstep]
        rcases h with hsub | ⟨e', ht, hsub⟩
        · refine Or.inr ⟨e, rfl, ?_⟩
          cases htr : s.tracked <;> simp [updateScrollContainer, htr, hsub]
        · refine Or.inr ⟨e, rfl, ?_⟩
          simp [updateScrollContainer, ht, hsub]
  | unmount =>
    rcases h with hsub | ⟨e', ht, hsub⟩
    · cases htr : s.tracked <;>
        simp [scStep, htr, hsub, scWellFormed]
    · simp [scStep, ht, hsub, scWellFormed]

/-- The subscription invariant holds after any event sequence on a mounted
ScrollContainer. -/
theorem scWellFormed_run {E : Type} [DecidableEq E] (c0 : Option E)
    (events : List (SCEvent E)) : scWellFormed (scRun c0 events) := by
  unfold scRun
  suffices hgen : ∀ (s : SCState E), scWellFormed s → scWellFormed (events.foldl scStep s) from
    hgen _ (scWellFormed_mount c0)
  induction events with
  | nil => exact fun s hs => hs
  | cons ev t ih => exact fun s hs => ih _ (scWellFormed_step s ev hs)

/-- C9: after mounting and any sequence of lifecycle events, the scroll
handler of ScrollContainer is subscribed to at most one element, and only to
the currently tracked scroll container (switching containers removes the old
subscription as it adds the new one); moreover an update resolving to the
element already tracked does not re-subscribe — the state is unchanged. -/
theorem c9_single_subscription {E : Type} [DecidableEq E] (c0 : Option E)
    (events : List (SCEvent E)) :
    ((scRun c0 events).subs.length ≤ 1 ∧
      ∀ e ∈ (scRun c0 events).subs, (scRun c0 events).tracked = some e) ∧
    (∀ (s : SCState E) (e : E), s.tracked = some e →
      scStep s (SCEvent.update (some e)) = s) := by
  constructor
  · rcases scWellFormed_run c0 events with h | ⟨e, ht, hs⟩
    · rw [h]
      exact ⟨by simp, by simp⟩
    · rw [hs]
      refine ⟨by simp, ?_⟩
      intro x hx
      rw [List.mem_singleton] at hx
      rw [hx, ht]
  · intro s e he
    simp [scStep, he]

/-- C9 (witness): a mount on element 0 followed by a switch to element 1
leaves at most one subscription, and an update resolving to the tracked
element 0 leaves the state untouched. -/
theorem c9_witness :
    (scRun (some (0 : ℕ)) [SCEvent.update (some 1)]).subs.length ≤ 1 ∧
    scStep (⟨some 0, [0]⟩ : SCState ℕ) (SCEvent.update (some 0)) = ⟨some 0, [0]⟩ :=
  ⟨(c9_single_subscription (some 0) [SCEvent.update (some 1)]).1.1,
   (c9_single_subscription (some (0 : ℕ)) []).2 ⟨some 0, [0]⟩ 0 rfl⟩
